import Mathlib

/-!
Verification development for the LeadPulse ("Lia") lead-capture engine.

Shallow embedding of the lead data model and the operations of
`database.py`, `multilanguage.py` and `app.py`:

* the SQLite `leads` table rows and `DatabaseManager.save_lead` /
  `DatabaseManager.update_lead_status` (database.py),
* the multilingual field extractor `extract_lead_info_multilingual`,
  the scorer `calculate_lead_score` and `get_lead_priority`
  (multilanguage.py),
* the regex field extractor `extract_lead_info_regex`, the in-session
  scorer `calculate_lead_score`, the LLM merge step
  `analyze_conversation_with_openai`, and the `chat_page` turn loop
  (app.py, embedded in namespace `App`).

Library calls are abstracted at natural boundaries: `re.search` results
are supplied by an oracle record (one entry per compiled pattern, in
source order), the OpenAI transport plus `json.loads` is an
`Except Unit Json` input, and SQL statements are modelled by explicit
list-of-rows state.  Timestamps (`CURRENT_TIMESTAMP`, `datetime.now()`)
are a `Nat` parameter `now`.  All control flow, guards, normalisation
and merge logic are translated line by line from the Python source.
-/

/-- SQL COALESCE with two arguments: the first non-null argument. -/
def coalesce {α : Type} (a b : Option α) : Option α :=
  match a with
  | some v => some v
  | none => b

/-- One row of the `leads` table created by `DatabaseManager.init_database`
(database.py lines 22-41).  `id` is the PRIMARY KEY; note that the schema
declares no UNIQUE constraint on `session_id`. -/
structure LeadRow where
  id : String
  session_id : String
  name : Option String
  email : Option String
  phone : Option String
  company : Option String
  interest : Option String
  budget : Option String
  language : String
  score : Int
  priority : String
  status : String
  created_at : Nat
  updated_at : Nat
  notes : Option String
  source : String
deriving DecidableEq

/-- The `lead_data` dict argument of `DatabaseManager.save_lead`: every key
may be absent or `None` (both modelled as `none`), matching the
`lead_data.get(...)` accesses in the source. -/
structure LeadDataDict where
  name : Option String
  email : Option String
  phone : Option String
  company : Option String
  interest : Option String
  budget : Option String
  language : Option String
  score : Option Int
  priority : Option String
  status : Option String
deriving DecidableEq

/-- The UPDATE branch of `DatabaseManager.save_lead` (database.py lines
159-186): `name = COALESCE(?, name)` and so on for the six contact and
qualification fields, `language`, `score` and `priority` set
unconditionally from the incoming dict (with the defaults of
`lead_data.get`), and `updated_at = CURRENT_TIMESTAMP`. -/
def save_lead_update (lead_data : LeadDataDict) (r : LeadRow) (now : Nat) : LeadRow :=
  { r with
    name := coalesce lead_data.name r.name
    email := coalesce lead_data.email r.email
    phone := coalesce lead_data.phone r.phone
    company := coalesce lead_data.company r.company
    interest := coalesce lead_data.interest r.interest
    budget := coalesce lead_data.budget r.budget
    language := lead_data.language.getD "en"
    score := lead_data.score.getD 0
    priority := lead_data.priority.getD "low"
    updated_at := now }

/-- The INSERT branch of `DatabaseManager.save_lead` (database.py lines
187-208); `created_at`, `updated_at`, `notes` and `source` take the
schema defaults. -/
def save_lead_insert (lead_data : LeadDataDict) (lead_id session_id : String)
    (now : Nat) : LeadRow :=
  { id := lead_id
    session_id := session_id
    name := lead_data.name
    email := lead_data.email
    phone := lead_data.phone
    company := lead_data.company
    interest := lead_data.interest
    budget := lead_data.budget
    language := lead_data.language.getD "en"
    score := lead_data.score.getD 0
    priority := lead_data.priority.getD "low"
    status := lead_data.status.getD "new"
    created_at := now
    updated_at := now
    notes := none
    source := "website" }

/-- `DatabaseManager.save_lead` over the whole `leads` table (database.py
lines 147-213): `SELECT id FROM leads WHERE session_id = ?` then either
`UPDATE ... WHERE id = ?` or `INSERT`.  `fresh_id` stands for the
generated `uuid.uuid4()`. -/
def save_lead (db : List LeadRow) (lead_data : LeadDataDict)
    (session_id fresh_id : String) (now : Nat) : List LeadRow :=
  match db.find? (fun r => r.session_id == session_id) with
  | some existing =>
      db.map (fun r => if r.id == existing.id then save_lead_update lead_data r now else r)
  | none => db ++ [save_lead_insert lead_data fresh_id session_id now]

/-- The per-row effect of `DatabaseManager.update_lead_status`
(database.py lines 359-373): `status = ?`, `notes = COALESCE(?, notes)`,
`updated_at = CURRENT_TIMESTAMP`. -/
def update_lead_status_row (status : String) (notes : Option String) (now : Nat)
    (r : LeadRow) : LeadRow :=
  { r with
    status := status
    notes := coalesce notes r.notes
    updated_at := now }

/-- `DatabaseManager.update_lead_status` over the table: the UPDATE hits
exactly the rows with `id = lead_id`. -/
def update_lead_status (db : List LeadRow) (lead_id status : String)
    (notes : Option String) (now : Nat) : List LeadRow :=
  db.map (fun r => if r.id == lead_id then update_lead_status_row status notes now r else r)

/-- At most one lead row per `session_id`: the session ids of the table are
pairwise distinct. -/
def at_most_one_lead_per_session (db : List LeadRow) : Prop :=
  (db.map (fun r => r.session_id)).Nodup

/-- The integrity constraints the persisted schema of `init_database`
actually declares on `leads`: `id TEXT PRIMARY KEY` and nothing else —
in particular `session_id TEXT` carries no UNIQUE constraint
(database.py lines 22-41). -/
def leads_schema_ok (db : List LeadRow) : Prop :=
  (db.map (fun r => r.id)).Nodup

/-- One call to `save_lead` with its arguments, for reasoning about
sequences of store operations. -/
structure SaveOp where
  lead_data : LeadDataDict
  session_id : String
  fresh_id : String
  now : Nat

/-- Apply one `save_lead` call to the table. -/
def apply_save_op (db : List LeadRow) (op : SaveOp) : List LeadRow :=
  save_lead db op.lead_data op.session_id op.fresh_id op.now

/-! ## multilanguage.py: string helpers -/

/-- Python whitespace as used by `str.strip` and the regex class `\s`. -/
def is_py_space (c : Char) : Bool :=
  c = ' ' || c = '\t' || c = '\n' || c = '\r' || c = '\x0b' || c = '\x0c'

/-- Python `str.strip()`. -/
def py_strip (s : String) : String :=
  String.mk (((s.data.dropWhile is_py_space).reverse.dropWhile is_py_space).reverse)

/-- Python `str.lower()` (ASCII, which is all the source compares). -/
def py_lower (s : String) : String :=
  String.mk (s.data.map Char.toLower)

/-- Worker for `py_title`: the boolean records whether the previous
character was alphabetic (cased). -/
def py_title_go : List Char → Bool → List Char
  | [], _ => []
  | c :: cs, prev_alpha =>
    if c.isAlpha then
      (if prev_alpha then c.toLower else c.toUpper) :: py_title_go cs true
    else
      c :: py_title_go cs false

/-- Python `str.title()`: capitalise the first letter of every run of
letters, lower-case the rest. -/
def py_title (s : String) : String :=
  String.mk (py_title_go s.data false)

/-- Python `needle in hay` on strings: substring containment. -/
def contains_sub (needle : List Char) : List Char → Bool
  | [] => needle.isEmpty
  | c :: tl => needle.isPrefixOf (c :: tl) || contains_sub needle tl

/-- The characters removed by `re.sub(r'[()\s-]', '', ...)` in the phone
branch of `extract_lead_info_multilingual`. -/
def is_phone_sep (c : Char) : Bool :=
  c = '(' || c = ')' || c = '-' || is_py_space c

/-- `re.sub(r'[()\s-]', '', s)`. -/
def strip_phone_seps (s : String) : String :=
  String.mk (s.data.filter (fun c => !is_phone_sep c))

/-- Python truthiness of a lead-dict entry read with `.get`: a missing key
or `None` (`none`) and the empty string are falsy. -/
def is_set (v : Option String) : Bool :=
  match v with
  | none => false
  | some s => !s.isEmpty

/-! ## multilanguage.py: extractor, scorer, priority -/

/-- The lead dict threaded through `extract_lead_info_multilingual` and
`calculate_lead_score` in multilanguage.py: the six fields those
functions read with `lead_data.get`. -/
structure MLLead where
  name : Option String
  email : Option String
  phone : Option String
  company : Option String
  interest : Option String
  budget : Option String
deriving DecidableEq

/-- The `re.search` results for one utterance, abstracting Python's regex
engine: for each field, the `LEAD_EXTRACTION_PATTERNS` entry of the given
language is a single pattern (email, phone: the full match `group()`) or
an ordered pattern list (name, company, interest, budget: `group(1)` of
each pattern, in source order, `none` where the pattern does not
match). -/
structure RegexOracle where
  email_search : String → String → Option String
  name_search : String → String → List (Option String)
  phone_search : String → String → Option String
  company_search : String → String → List (Option String)
  interest_search : String → String → List (Option String)
  budget_search : String → String → List (Option String)

/-- The name pattern loop of `extract_lead_info_multilingual` (lines
236-246): first pattern whose match passes the false-positive filter
wins (`len(name) > 1` and no blacklisted word inside `name.lower()`);
a match that fails the filter falls through to the next pattern. -/
def ml_name_loop (ms : List (Option String)) (l : MLLead) : MLLead :=
  match ms with
  | [] => l
  | none :: rest => ml_name_loop rest l
  | some m :: rest =>
    let name := py_title (py_strip m)
    if name.length > 1
        && !(["email", "phone", "number", "address"].any
              (fun w => contains_sub w.data (py_lower name).data)) then
      { l with name := some name }
    else
      ml_name_loop rest l

/-- The company pattern loop (lines 261-271): filter is
`len(company) > 2` and a three-word blacklist. -/
def ml_company_loop (ms : List (Option String)) (l : MLLead) : MLLead :=
  match ms with
  | [] => l
  | none :: rest => ml_company_loop rest l
  | some m :: rest =>
    let company := py_title (py_strip m)
    if company.length > 2
        && !(["email", "phone", "number"].any
              (fun w => contains_sub w.data (py_lower company).data)) then
      { l with company := some company }
    else
      ml_company_loop rest l

/-- The interest pattern loop (lines 275-285): accept a stripped span of
5 to 100 characters. -/
def ml_interest_loop (ms : List (Option String)) (l : MLLead) : MLLead :=
  match ms with
  | [] => l
  | none :: rest => ml_interest_loop rest l
  | some m :: rest =>
    let interest := py_strip m
    if 5 ≤ interest.length && interest.length ≤ 100 then
      { l with interest := some interest }
    else
      ml_interest_loop rest l

/-- The budget pattern loop (lines 289-297): the first matching pattern
wins, the captured group is stored as-is. -/
def ml_budget_loop (ms : List (Option String)) (l : MLLead) : MLLead :=
  match ms with
  | [] => l
  | none :: rest => ml_budget_loop rest l
  | some m :: _ => { l with budget := some m }

/-- The email block (lines 226-232): full match lower-cased. -/
def ml_email_block (o : RegexOracle) (language user_input : String) (l : MLLead) : MLLead :=
  if is_set l.email then l
  else
    match o.email_search language user_input with
    | some m => { l with email := some (py_lower m) }
    | none => l

/-- The name block (lines 235-246). -/
def ml_name_block (o : RegexOracle) (language user_input : String) (l : MLLead) : MLLead :=
  if is_set l.name then l else ml_name_loop (o.name_search language user_input) l

/-- The phone block (lines 249-257): the match with separators stripped is
used only for the `len(phone) >= 10` validity check; the value stored is
the raw `phone_match.group()`. -/
def ml_phone_block (o : RegexOracle) (language user_input : String) (l : MLLead) : MLLead :=
  if is_set l.phone then l
  else
    match o.phone_search language user_input with
    | some m => if 10 ≤ (strip_phone_seps m).length then { l with phone := some m } else l
    | none => l

/-- The company block (lines 260-271). -/
def ml_company_block (o : RegexOracle) (language user_input : String) (l : MLLead) : MLLead :=
  if is_set l.company then l else ml_company_loop (o.company_search language user_input) l

/-- The interest block (lines 274-285). -/
def ml_interest_block (o : RegexOracle) (language user_input : String) (l : MLLead) : MLLead :=
  if is_set l.interest then l else ml_interest_loop (o.interest_search language user_input) l

/-- The budget block (lines 288-297). -/
def ml_budget_block (o : RegexOracle) (language user_input : String) (l : MLLead) : MLLead :=
  if is_set l.budget then l else ml_budget_loop (o.budget_search language user_input) l

/-- `extract_lead_info_multilingual(user_input, language, lead_data)`
(multilanguage.py lines 218-299): early return on empty input, then the
six field blocks in source order, each guarded by
`if not lead_data.get(field)`. -/
def extract_lead_info_multilingual (o : RegexOracle) (user_input language : String)
    (lead_data : MLLead) : MLLead :=
  if user_input.isEmpty then lead_data
  else
    let l1 := ml_email_block o language user_input lead_data
    let l2 := ml_name_block o language user_input l1
    let l3 := ml_phone_block o language user_input l2
    let l4 := ml_company_block o language user_input l3
    let l5 := ml_interest_block o language user_input l4
    ml_budget_block o language user_input l5

/-- `calculate_lead_score(lead_data, config)` (multilanguage.py lines
301-324).  `scoring` stands for
`config.get("lead_qualification", {}).get("scoring", {})`; an absent key
yields the source's default weight.  Buying signals do not appear in
this function at all. -/
def calculate_lead_score (lead_data : MLLead) (scoring : String → Option Int) : Int :=
  let score : Int := 0
  let score := score + (if is_set lead_data.email then (scoring "email_provided").getD 30 else 0)
  let score := score + (if is_set lead_data.phone then (scoring "phone_provided").getD 20 else 0)
  let score := score + (if is_set lead_data.company then (scoring "company_provided").getD 15 else 0)
  let score := score + (if is_set lead_data.budget then (scoring "budget_provided").getD 15 else 0)
  let score := score + (if is_set lead_data.interest then (scoring "timeline_provided").getD 10 else 0)
  let score := score + (if is_set lead_data.name then 10 else 0)
  min score 100

/-- The empty scoring config (`config` without a
`lead_qualification.scoring` entry): every weight takes its default. -/
def default_scoring : String → Option Int := fun _ => none

/-- `get_lead_priority(score, language)` (multilanguage.py lines 326-333),
restricted to its first tuple component, the priority tag; the localized
label and the emoji of the source tuple are presentation only. -/
def get_lead_priority (score : Int) : String :=
  if 70 ≤ score then "high"
  else if 40 ≤ score then "medium"
  else "low"

/-- Rank of a priority tag in the order low < medium < high, for stating
monotonicity. -/
def priority_rank (p : String) : Nat :=
  if p = "high" then 2 else if p = "medium" then 1 else 0

/-- The scoring formula asserted by the specification, written from the
spec's words for comparison with `calculate_lead_score`: email 30,
phone 20, company 15, budget 15, interest/timeline 10, name 10, plus 10
per buying signal capped at 30 for signals, clamped to `[0, 100]`. -/
def spec_claimed_score (email phone company budget interest name : Bool)
    (buying_signals : Nat) : Int :=
  let base : Int :=
    (if email then 30 else 0) + (if phone then 20 else 0) + (if company then 15 else 0)
      + (if budget then 15 else 0) + (if interest then 10 else 0) + (if name then 10 else 0)
      + min ((buying_signals : Int) * 10) 30
  max 0 (min base 100)

/-! ## app.py: JSON values and Python truthiness -/

/-- A parsed JSON value, as `json.loads` can return one (numbers as `Int`;
none of the analysed responses carries a fractional number). -/
inductive Json where
  | null : Json
  | bool : Bool → Json
  | num : Int → Json
  | str : String → Json
  | arr : List Json → Json
  | obj : List (String × Json) → Json

mutual

/-- Python `==` on JSON values (structural). -/
def jsonBeq : Json → Json → Bool
  | .null, .null => true
  | .bool a, .bool b => a == b
  | .num a, .num b => a == b
  | .str a, .str b => a == b
  | .arr a, .arr b => jsonBeqList a b
  | .obj a, .obj b => jsonBeqKvs a b
  | _, _ => false

/-- Python `==` on JSON arrays. -/
def jsonBeqList : List Json → List Json → Bool
  | [], [] => true
  | x :: xs, y :: ys => jsonBeq x y && jsonBeqList xs ys
  | _, _ => false

/-- Python `==` on JSON objects (the source only ever builds lists of
distinct keys, so ordered comparison is faithful here). -/
def jsonBeqKvs : List (String × Json) → List (String × Json) → Bool
  | [], [] => true
  | (k1, v1) :: xs, (k2, v2) :: ys => k1 == k2 && jsonBeq v1 v2 && jsonBeqKvs xs ys
  | _, _ => false

end

/-- Python truthiness of a JSON value (`None`, `False`, `0`, `""`, `[]`,
`{}` are falsy). -/
def Json.truthy : Json → Bool
  | .null => false
  | .bool b => b
  | .num n => n != 0
  | .str s => !s.isEmpty
  | .arr xs => !xs.isEmpty
  | .obj kvs => !kvs.isEmpty

/-- Whether the value is a JSON object (a Python dict). -/
def Json.isObj : Json → Bool
  | .obj _ => true
  | _ => false

/-- Python `analysis.get(key)`: on a dict, the value (or `None` when the
key is absent); on anything else `.get` does not exist, so an
`AttributeError` is raised, modelled as `Except.error`. -/
def dict_get (j : Json) (k : String) : Except Unit Json :=
  match j with
  | .obj kvs =>
      .ok (match kvs.find? (fun kv => kv.1 == k) with
           | some kv => kv.2
           | none => .null)
  | _ => .error ()

/-- Python `x in l` on a list of JSON values. -/
def json_mem (x : Json) (l : List Json) : Bool :=
  l.any (fun e => jsonBeq e x)

namespace App

/-- `st.session_state.lead_data` of app.py (chat_page lines 579-593):
the regex extractor and the LLM merge assign arbitrary Python values to
the scalar fields, so they are modelled as `Json` (`Json.null` is
Python's `None`).  `lead_id` is immaterial to every claim and omitted;
`last_updated` is a timestamp. -/
structure AppLead where
  name : Json
  email : Json
  phone : Json
  interest : Json
  company : Json
  industry : Json
  pain_points : Json
  buying_signals : List Json
  lead_score : Int
  lead_status : String
  last_updated : Nat

/-- `calculate_lead_score()` of app.py (lines 388-424), acting on the
session lead record: weights name 10, email 20, phone 15, company 5,
industry 10, interest 10, pain points 10, plus `min(signals * 5, 20)`;
status Hot at 70, Warm at 40, else Cold. -/
def calculate_lead_score (l : AppLead) : AppLead :=
  let score : Int :=
    (if l.name.truthy then 10 else 0)
    + (if l.email.truthy then 20 else 0)
    + (if l.phone.truthy then 15 else 0)
    + (if l.company.truthy then 5 else 0)
    + (if l.industry.truthy then 10 else 0)
    + (if l.interest.truthy then 10 else 0)
    + (if l.pain_points.truthy then 10 else 0)
    + min ((l.buying_signals.length : Int) * 5) 20
  let status := if 70 ≤ score then "Hot" else if 40 ≤ score then "Warm" else "Cold"
  { l with lead_score := score, lead_status := status }

/-- The `if updated:` epilogue shared by `extract_lead_info_regex` and
`analyze_conversation_with_openai`: stamp `last_updated` and recompute
the score. -/
def finalize (l : AppLead) (now : Nat) : AppLead :=
  calculate_lead_score { l with last_updated := now }

/-! ### The LLM merge step (`analyze_conversation_with_openai`) -/

/-- Merge state: the session lead record and the `updated` flag.  A step
returns `Except.error` when the Python line it models raises; the error
carries the state at the raise, because the mutations already applied to
`st.session_state.lead_data` persist when `except` catches. -/
abbrev MergeSt := AppLead × Bool

/-- Lines 341-349: `if not lead_data["interest"] and
analysis.get("implied_interests"):` then list/str dispatch. -/
def merge_interest (analysis : Json) (st : MergeSt) : Except MergeSt MergeSt :=
  if !st.1.interest.truthy then
    match dict_get analysis "implied_interests" with
    | .error _ => .error st
    | .ok v =>
      if v.truthy then
        match v with
        | .arr (x :: _) => .ok ({ st.1 with interest := x }, true)
        | .str s => .ok ({ st.1 with interest := .str s }, true)
        | _ => .ok st
      else .ok st
  else .ok st

/-- Lines 352-354: `if not lead_data["industry"] and
analysis.get("industry"):` assigns the raw value. -/
def merge_industry (analysis : Json) (st : MergeSt) : Except MergeSt MergeSt :=
  if !st.1.industry.truthy then
    match dict_get analysis "industry" with
    | .error _ => .error st
    | .ok v => if v.truthy then .ok ({ st.1 with industry := v }, true) else .ok st
  else .ok st

/-- `"; ".join(pain_points)`: `some` of the joined string when every
element is a string, `none` when the join raises `TypeError`. -/
def join_pain_points (xs : List Json) : Option String :=
  if xs.all (fun x => match x with | .str _ => true | _ => false) then
    some (String.intercalate "; " (xs.filterMap
      (fun x => match x with | .str s => some s | _ => none)))
  else
    none

/-- Lines 357-364: pain points, with the `"; ".join` that raises on a
list holding a non-string. -/
def merge_pain_points (analysis : Json) (st : MergeSt) : Except MergeSt MergeSt :=
  if !st.1.pain_points.truthy then
    match dict_get analysis "pain_points" with
    | .error _ => .error st
    | .ok v =>
      if v.truthy then
        match v with
        | .arr (x :: xs) =>
          match join_pain_points (x :: xs) with
          | some s => .ok ({ st.1 with pain_points := .str s }, true)
          | none => .error st
        | .str s => .ok ({ st.1 with pain_points := .str s }, true)
        | _ => .ok st
      else .ok st
  else .ok st

/-- The loop body of lines 370-373: `if signal not in
lead_data["buying_signals"]: append; updated = True`. -/
def append_signal (st : List Json × Bool) (signal : Json) : List Json × Bool :=
  if json_mem signal st.1 then st else (st.1 ++ [signal], true)

/-- Lines 367-376: `if analysis.get("buying_signals"):` then the
append/dedup loop for a list, or a single membership-checked append for
a string. -/
def merge_buying_signals (analysis : Json) (st : MergeSt) : Except MergeSt MergeSt :=
  match dict_get analysis "buying_signals" with
  | .error _ => .error st
  | .ok v =>
    if v.truthy then
      match v with
      | .arr xs =>
        let r := xs.foldl append_signal (st.1.buying_signals, st.2)
        .ok ({ st.1 with buying_signals := r.1 }, r.2)
      | .str s =>
        if json_mem (Json.str s) st.1.buying_signals then .ok st
        else .ok ({ st.1 with buying_signals := st.1.buying_signals ++ [Json.str s] }, true)
      | _ => .ok st
    else .ok st

/-- `analyze_conversation_with_openai()` (app.py lines 296-386).  The
whole body sits in one `try/except`, so the function always returns a
lead record.  `history_len` is `len(st.session_state.messages)`;
`response` is the outcome of the API call plus `json.loads`
(`Except.error` for a transport error, a timeout or unparsable text, all
of which raise before any mutation).  A raise inside the merge chain is
caught with the mutations made so far kept, and the `if updated:`
epilogue skipped. -/
def analyze_conversation_with_openai (history_len : Nat) (response : Except Unit Json)
    (lead : AppLead) (now : Nat) : AppLead :=
  if history_len < 3 then lead
  else
    match response with
    | .error _ => lead
    | .ok analysis =>
      match (merge_interest analysis (lead, false)).bind (merge_industry analysis)
          |>.bind (merge_pain_points analysis) |>.bind (merge_buying_signals analysis) with
      | .ok (l, u) => if u then finalize l now else l
      | .error (l, _) => l

/-- The analysis response shape requested by the prompt of
`analyze_conversation_with_openai` (app.py lines 307-322), written from
its words: a JSON object in which each of the five keys, when present,
holds a string, an array of strings, or null. -/
def spec_well_formed_analysis (j : Json) : Bool :=
  match j with
  | .obj kvs =>
      (["implied_interests", "industry", "pain_points", "buying_signals", "company_size"].all
        (fun k =>
          match kvs.find? (fun kv => kv.1 == k) with
          | none => true
          | some kv =>
            match kv.2 with
            | .null => true
            | .str _ => true
            | .arr xs => xs.all (fun x => match x with | .str _ => true | _ => false)
            | _ => false))
  | _ => false

/-! ### The regex extractor of app.py (`extract_lead_info_regex`) -/

/-- The `re.search` results for one utterance against the inline patterns
of `extract_lead_info_regex` (app.py lines 208-294), in source order:
email one pattern (full match), phone three patterns (full match), name
two patterns (`group(1)`), company two patterns (`group(1)`), interest
two patterns (`group(1)`). -/
structure AppRegexOracle where
  email_search : String → Option String
  phone_search : String → List (Option String)
  name_search : String → List (Option String)
  company_search : String → List (Option String)
  interest_search : String → List (Option String)

/-- The `for pattern in patterns: ... break` loops of
`extract_lead_info_regex`: the first matching pattern wins (every loop
there sets the field and breaks on the first match, with no filter). -/
def first_match : List (Option String) → Option String
  | [] => none
  | none :: rest => first_match rest
  | some m :: _ => some m

/-- `re.sub(r'\D', '', s)`: keep only digits. -/
def strip_non_digits (s : String) : String :=
  String.mk (s.data.filter Char.isDigit)

/-- The email block of `extract_lead_info_regex` (lines 213-220). -/
def regex_email_block (o : AppRegexOracle) (user_input : String)
    (st : AppLead × Bool) : AppLead × Bool :=
  if !st.1.email.truthy then
    match o.email_search user_input with
    | some m => ({ st.1 with email := Json.str m }, true)
    | none => st
  else st

/-- The phone block (lines 222-239): the first matching pattern's match,
digits only. -/
def regex_phone_block (o : AppRegexOracle) (user_input : String)
    (st : AppLead × Bool) : AppLead × Bool :=
  if !st.1.phone.truthy then
    match first_match (o.phone_search user_input) with
    | some m => ({ st.1 with phone := Json.str (strip_non_digits m) }, true)
    | none => st
  else st

/-- The name block (lines 241-255): `group(1).strip().title()`. -/
def regex_name_block (o : AppRegexOracle) (user_input : String)
    (st : AppLead × Bool) : AppLead × Bool :=
  if !st.1.name.truthy then
    match first_match (o.name_search user_input) with
    | some m => ({ st.1 with name := Json.str (py_title (py_strip m)) }, true)
    | none => st
  else st

/-- The company block (lines 257-271): `group(1).strip().title()`. -/
def regex_company_block (o : AppRegexOracle) (user_input : String)
    (st : AppLead × Bool) : AppLead × Bool :=
  if !st.1.company.truthy then
    match first_match (o.company_search user_input) with
    | some m => ({ st.1 with company := Json.str (py_title (py_strip m)) }, true)
    | none => st
  else st

/-- The interest block (lines 273-287): `group(1).strip().lower()`. -/
def regex_interest_block (o : AppRegexOracle) (user_input : String)
    (st : AppLead × Bool) : AppLead × Bool :=
  if !st.1.interest.truthy then
    match first_match (o.interest_search user_input) with
    | some m => ({ st.1 with interest := Json.str (py_lower (py_strip m)) }, true)
    | none => st
  else st

/-- `extract_lead_info_regex(user_input)` (app.py lines 208-294): the five
field blocks in source order, each guarded by `if not lead_data[f]`,
then the `if updated:` epilogue. -/
def extract_lead_info_regex (o : AppRegexOracle) (user_input : String)
    (lead : AppLead) (now : Nat) : AppLead :=
  let st := regex_email_block o user_input (lead, false)
  let st := regex_phone_block o user_input st
  let st := regex_name_block o user_input st
  let st := regex_company_block o user_input st
  let st := regex_interest_block o user_input st
  if st.2 then finalize st.1 now else st.1

/-! ### The chat turn loop of `chat_page` -/

/-- The session chat state of `chat_page` (app.py lines 575-601):
`st.session_state.messages` as (role, content) pairs, and
`st.session_state.message_counter`. -/
structure ChatState where
  messages : List (String × String)
  message_counter : Nat

/-- Session initialisation (lines 575-597): one assistant greeting,
counter zero. -/
def init_chat (greeting : String) : ChatState :=
  { messages := [("assistant", greeting)], message_counter := 0 }

/-- Whether the periodic analysis is invoked this turn (line 625):
`st.session_state.message_counter % 3 == 0` after the counter was
incremented for the incoming user message. -/
def analysis_invoked (st : ChatState) : Bool :=
  (st.message_counter + 1) % 3 == 0

/-- `len(st.session_state.messages)` at the moment of the periodic check:
the user message has been appended (line 615), the assistant reply not
yet. -/
def history_len_at_check (st : ChatState) : Nat :=
  st.messages.length + 1

/-- Whether an analysis is actually performed this turn: invoked by the
cadence gate, and past the `if len(messages) < 3: return` guard of
`analyze_conversation_with_openai` (line 300). -/
def analysis_performed (st : ChatState) : Bool :=
  analysis_invoked st && !(history_len_at_check st < 3)

/-- One turn of `chat_page` (lines 609-636): append the user message,
increment the counter (extraction and the optional analysis touch only
the lead record, not these two), then append the assistant reply. -/
def chat_turn (st : ChatState) (prompt assistant_response : String) : ChatState :=
  { messages := (st.messages ++ [("user", prompt)]) ++ [("assistant", assistant_response)]
    message_counter := st.message_counter + 1 }

/-- A whole conversation: fold the turns from the initial state. -/
def run_chat (greeting : String) (turns : List (String × String)) : ChatState :=
  turns.foldl (fun s t => chat_turn s t.1 t.2) (init_chat greeting)

end App

/-! ## Concrete records and oracles used by the theorems below -/

/-- Number of occurrences of the signal string `s` (under Python `==`)
in a buying-signals list. -/
def signal_count (s : String) (l : List Json) : Nat :=
  (l.filter (fun e => jsonBeq e (Json.str s))).length

/-- A lead dict with every field still unset. -/
def empty_ml_lead : MLLead :=
  { name := none, email := none, phone := none, company := none,
    interest := none, budget := none }

/-- The `re.search` outcomes of the `en` patterns of
`LEAD_EXTRACTION_PATTERNS` on the utterance
`"call me at 123-456-7890"`: no email; the first name pattern's trigger
`call me` captures `"at "`; the phone pattern matches
`"123-456-7890"`; no company, interest or budget pattern matches. -/
def c8_oracle : RegexOracle :=
  { email_search := fun _ _ => none
    name_search := fun _ _ => [some "at ", none, none]
    phone_search := fun _ _ => some "123-456-7890"
    company_search := fun _ _ => [none, none]
    interest_search := fun _ _ => [none, none]
    budget_search := fun _ _ => [none, none] }

/-- A stored lead row whose `name` is already populated. -/
def c1_stored : LeadRow :=
  { id := "lead-1", session_id := "sess-1", name := some "Alice", email := none,
    phone := none, company := none, interest := none, budget := none,
    language := "en", score := 10, priority := "low", status := "new",
    created_at := 0, updated_at := 0, notes := none, source := "website" }

/-- An incoming partial lead supplying a different non-null `name`. -/
def c1_incoming : LeadDataDict :=
  { name := some "Bob", email := none, phone := none, company := none,
    interest := none, budget := none, language := some "en", score := some 40,
    priority := some "medium", status := none }

/-- A session lead record holding only an email address. -/
def c3_email_only : App.AppLead :=
  { name := .null, email := .str "a@b.co", phone := .null, interest := .null,
    company := .null, industry := .null, pain_points := .null,
    buying_signals := [], lead_score := 0, lead_status := "New", last_updated := 0 }

/-- A session lead record holding exactly one buying signal. -/
def c3_one_signal : App.AppLead :=
  { name := .null, email := .null, phone := .null, interest := .null,
    company := .null, industry := .null, pain_points := .null,
    buying_signals := [.str "asked for pricing"], lead_score := 0,
    lead_status := "New", last_updated := 0 }

/-- Two distinct lead rows sharing one `session_id`. -/
def c5_row1 : LeadRow :=
  { id := "A", session_id := "S", name := none, email := none, phone := none,
    company := none, interest := none, budget := none, language := "en",
    score := 0, priority := "low", status := "new", created_at := 0,
    updated_at := 0, notes := none, source := "website" }

/-- Second row with the same `session_id` but its own primary key. -/
def c5_row2 : LeadRow :=
  { c5_row1 with id := "B" }

/-- One `save_lead` call for the C5 witness. -/
def c5_op : SaveOp :=
  { lead_data := c1_incoming, session_id := "S", fresh_id := "F", now := 3 }

/-- A fresh session lead record (every scalar `None`, no signals). -/
def c6_lead : App.AppLead :=
  { name := .null, email := .null, phone := .null, interest := .null,
    company := .null, industry := .null, pain_points := .null,
    buying_signals := [], lead_score := 0, lead_status := "New", last_updated := 0 }

/-- A structured response that is a JSON object but violates the requested
schema: `pain_points` is an array holding a number, not strings.  Its
`implied_interests` entry is fine and is merged before the violation is
reached. -/
def c6_bad_response : Json :=
  .obj [("implied_interests", .str "AI solutions"), ("pain_points", .arr [.num 1])]

/-- A stored row for exercising `update_lead_status`. -/
def c10_row : LeadRow :=
  { id := "L7", session_id := "S7", name := some "Eve", email := some "e@x.io",
    phone := none, company := none, interest := none, budget := none,
    language := "en", score := 55, priority := "medium", status := "new",
    created_at := 1, updated_at := 1, notes := some "first call done",
    source := "website" }

/-- A second row that `update_lead_status` must leave untouched. -/
def c10_other : LeadRow :=
  { c10_row with id := "L8", session_id := "S8" }

/-- An oracle on which no multilanguage pattern matches. -/
def ml_null_oracle : RegexOracle :=
  { email_search := fun _ _ => none
    name_search := fun _ _ => []
    phone_search := fun _ _ => none
    company_search := fun _ _ => []
    interest_search := fun _ _ => []
    budget_search := fun _ _ => [] }

/-- An oracle on which every multilanguage pattern matches, for the C2
witness: the guards must win over a matching pattern. -/
def ml_full_oracle : RegexOracle :=
  { email_search := fun _ _ => some "new@mail.io"
    name_search := fun _ _ => [some "Mallory"]
    phone_search := fun _ _ => some "555-123-4567"
    company_search := fun _ _ => [some "Initech"]
    interest_search := fun _ _ => [some "crm tooling"]
    budget_search := fun _ _ => [some "900"] }

/-- An app.py oracle on which every inline pattern matches. -/
def app_full_oracle : App.AppRegexOracle :=
  { email_search := fun _ => some "new@mail.io"
    phone_search := fun _ => [some "5551234567"]
    name_search := fun _ => [some "Mallory"]
    company_search := fun _ => [some "Initech"]
    interest_search := fun _ => [some "crm tooling"] }

/-- A lead dict with every field populated, for the C2 witness. -/
def c2_full_ml_lead : MLLead :=
  { name := some "Alice", email := some "alice@example.com",
    phone := some "1234567890", company := some "Acme",
    interest := some "analytics", budget := some "500" }

/-- A session lead record with every contact field populated, for the C2
witness. -/
def c2_full_app_lead : App.AppLead :=
  { name := .str "Alice", email := .str "alice@example.com",
    phone := .str "1234567890", interest := .str "analytics",
    company := .str "Acme", industry := .null, pain_points := .null,
    buying_signals := [], lead_score := 0, lead_status := "New", last_updated := 0 }

/-! ## Frame lemmas for the multilingual extractor -/

theorem ml_name_loop_other (ms : List (Option String)) (l : MLLead) :
    (ml_name_loop ms l).email = l.email ∧ (ml_name_loop ms l).phone = l.phone
      ∧ (ml_name_loop ms l).company = l.company ∧ (ml_name_loop ms l).interest = l.interest
      ∧ (ml_name_loop ms l).budget = l.budget := by
  induction ms with
  | nil => exact ⟨rfl, rfl, rfl, rfl, rfl⟩
  | cons m rest ih =>
    cases m with
    | none => simpa [ml_name_loop] using ih
    | some v =>
      simp only [ml_name_loop]
      split
      · exact ⟨rfl, rfl, rfl, rfl, rfl⟩
      · exact ih

theorem ml_company_loop_other (ms : List (Option String)) (l : MLLead) :
    (ml_company_loop ms l).name = l.name ∧ (ml_company_loop ms l).email = l.email
      ∧ (ml_company_loop ms l).phone = l.phone ∧ (ml_company_loop ms l).interest = l.interest
      ∧ (ml_company_loop ms l).budget = l.budget := by
  induction ms with
  | nil => exact ⟨rfl, rfl, rfl, rfl, rfl⟩
  | cons m rest ih =>
    cases m with
    | none => simpa [ml_company_loop] using ih
    | some v =>
      simp only [ml_company_loop]
      split
      · exact ⟨rfl, rfl, rfl, rfl, rfl⟩
      · exact ih

theorem ml_interest_loop_other (ms : List (Option String)) (l : MLLead) :
    (ml_interest_loop ms l).name = l.name ∧ (ml_interest_loop ms l).email = l.email
      ∧ (ml_interest_loop ms l).phone = l.phone ∧ (ml_interest_loop ms l).company = l.company
      ∧ (ml_interest_loop ms l).budget = l.budget := by
  induction ms with
  | nil => exact ⟨rfl, rfl, rfl, rfl, rfl⟩
  | cons m rest ih =>
    cases m with
    | none => simpa [ml_interest_loop] using ih
    | some v =>
      simp only [ml_interest_loop]
      split
      · exact ⟨rfl, rfl, rfl, rfl, rfl⟩
      · exact ih

theorem ml_budget_loop_other (ms : List (Option String)) (l : MLLead) :
    (ml_budget_loop ms l).name = l.name ∧ (ml_budget_loop ms l).email = l.email
      ∧ (ml_budget_loop ms l).phone = l.phone ∧ (ml_budget_loop ms l).company = l.company
      ∧ (ml_budget_loop ms l).interest = l.interest := by
  induction ms with
  | nil => exact ⟨rfl, rfl, rfl, rfl, rfl⟩
  | cons m rest ih =>
    cases m with
    | none => simpa [ml_budget_loop] using ih
    | some v => exact ⟨rfl, rfl, rfl, rfl, rfl⟩

theorem ml_email_block_other (o : RegexOracle) (lg i : String) (l : MLLead) :
    (ml_email_block o lg i l).name = l.name ∧ (ml_email_block o lg i l).phone = l.phone
      ∧ (ml_email_block o lg i l).company = l.company
      ∧ (ml_email_block o lg i l).interest = l.interest
      ∧ (ml_email_block o lg i l).budget = l.budget := by
  unfold ml_email_block
  split
  · exact ⟨rfl, rfl, rfl, rfl, rfl⟩
  · split
    · exact ⟨rfl, rfl, rfl, rfl, rfl⟩
    · exact ⟨rfl, rfl, rfl, rfl, rfl⟩

theorem ml_name_block_other (o : RegexOracle) (lg i : String) (l : MLLead) :
    (ml_name_block o lg i l).email = l.email ∧ (ml_name_block o lg i l).phone = l.phone
      ∧ (ml_name_block o lg i l).company = l.company
      ∧ (ml_name_block o lg i l).interest = l.interest
      ∧ (ml_name_block o lg i l).budget = l.budget := by
  unfold ml_name_block
  split
  · exact ⟨rfl, rfl, rfl, rfl, rfl⟩
  · exact ml_name_loop_other _ _

theorem ml_phone_block_other (o : RegexOracle) (lg i : String) (l : MLLead) :
    (ml_phone_block o lg i l).name = l.name ∧ (ml_phone_block o lg i l).email = l.email
      ∧ (ml_phone_block o lg i l).company = l.company
      ∧ (ml_phone_block o lg i l).interest = l.interest
      ∧ (ml_phone_block o lg i l).budget = l.budget := by
  unfold ml_phone_block
  split
  · exact ⟨rfl, rfl, rfl, rfl, rfl⟩
  · split
    · split
      · exact ⟨rfl, rfl, rfl, rfl, rfl⟩
      · exact ⟨rfl, rfl, rfl, rfl, rfl⟩
    · exact ⟨rfl, rfl, rfl, rfl, rfl⟩

theorem ml_company_block_other (o : RegexOracle) (lg i : String) (l : MLLead) :
    (ml_company_block o lg i l).name = l.name ∧ (ml_company_block o lg i l).email = l.email
      ∧ (ml_company_block o lg i l).phone = l.phone
      ∧ (ml_company_block o lg i l).interest = l.interest
      ∧ (ml_company_block o lg i l).budget = l.budget := by
  unfold ml_company_block
  split
  · exact ⟨rfl, rfl, rfl, rfl, rfl⟩
  · exact ml_company_loop_other _ _

theorem ml_interest_block_other (o : RegexOracle) (lg i : String) (l : MLLead) :
    (ml_interest_block o lg i l).name = l.name ∧ (ml_interest_block o lg i l).email = l.email
      ∧ (ml_interest_block o lg i l).phone = l.phone
      ∧ (ml_interest_block o lg i l).company = l.company
      ∧ (ml_interest_block o lg i l).budget = l.budget := by
  unfold ml_interest_block
  split
  · exact ⟨rfl, rfl, rfl, rfl, rfl⟩
  · exact ml_interest_loop_other _ _

theorem ml_budget_block_other (o : RegexOracle) (lg i : String) (l : MLLead) :
    (ml_budget_block o lg i l).name = l.name ∧ (ml_budget_block o lg i l).email = l.email
      ∧ (ml_budget_block o lg i l).phone = l.phone
      ∧ (ml_budget_block o lg i l).company = l.company
      ∧ (ml_budget_block o lg i l).interest = l.interest := by
  unfold ml_budget_block
  split
  · exact ⟨rfl, rfl, rfl, rfl, rfl⟩
  · exact ml_budget_loop_other _ _

theorem ml_email_block_of_set (o : RegexOracle) (lg i : String) (l : MLLead)
    (h : is_set l.email = true) : ml_email_block o lg i l = l := by
  simp [ml_email_block, h]

theorem ml_name_block_of_set (o : RegexOracle) (lg i : String) (l : MLLead)
    (h : is_set l.name = true) : ml_name_block o lg i l = l := by
  simp [ml_name_block, h]

theorem ml_phone_block_of_set (o : RegexOracle) (lg i : String) (l : MLLead)
    (h : is_set l.phone = true) : ml_phone_block o lg i l = l := by
  simp [ml_phone_block, h]

theorem ml_company_block_of_set (o : RegexOracle) (lg i : String) (l : MLLead)
    (h : is_set l.company = true) : ml_company_block o lg i l = l := by
  simp [ml_company_block, h]

theorem ml_interest_block_of_set (o : RegexOracle) (lg i : String) (l : MLLead)
    (h : is_set l.interest = true) : ml_interest_block o lg i l = l := by
  simp [ml_interest_block, h]

theorem ml_budget_block_of_set (o : RegexOracle) (lg i : String) (l : MLLead)
    (h : is_set l.budget = true) : ml_budget_block o lg i l = l := by
  simp [ml_budget_block, h]

theorem extract_ml_keeps_name (o : RegexOracle) (i lg : String) (l : MLLead)
    (h : is_set l.name = true) :
    (extract_lead_info_multilingual o i lg l).name = l.name := by
  cases he : i.isEmpty with
  | true => simp [extract_lead_info_multilingual, he]
  | false =>
    unfold extract_lead_info_multilingual
    simp only [he, Bool.false_eq_true, if_false]
    have e1 := (ml_email_block_other o lg i l).1
    have hset : is_set (ml_email_block o lg i l).name = true := by rw [e1]; exact h
    rw [(ml_budget_block_other o lg i _).1, (ml_interest_block_other o lg i _).1,
      (ml_company_block_other o lg i _).1, (ml_phone_block_other o lg i _).1,
      ml_name_block_of_set o lg i _ hset, e1]

theorem extract_ml_keeps_email (o : RegexOracle) (i lg : String) (l : MLLead)
    (h : is_set l.email = true) :
    (extract_lead_info_multilingual o i lg l).email = l.email := by
  cases he : i.isEmpty with
  | true => simp [extract_lead_info_multilingual, he]
  | false =>
    unfold extract_lead_info_multilingual
    simp only [he, Bool.false_eq_true, if_false]
    rw [(ml_budget_block_other o lg i _).2.1, (ml_interest_block_other o lg i _).2.1,
      (ml_company_block_other o lg i _).2.1, (ml_phone_block_other o lg i _).2.1,
      (ml_name_block_other o lg i _).1, ml_email_block_of_set o lg i l h]

theorem extract_ml_keeps_phone (o : RegexOracle) (i lg : String) (l : MLLead)
    (h : is_set l.phone = true) :
    (extract_lead_info_multilingual o i lg l).phone = l.phone := by
  cases he : i.isEmpty with
  | true => simp [extract_lead_info_multilingual, he]
  | false =>
    unfold extract_lead_info_multilingual
    simp only [he, Bool.false_eq_true, if_false]
    have hset : is_set (ml_name_block o lg i (ml_email_block o lg i l)).phone = true := by
      rw [(ml_name_block_other o lg i _).2.1, (ml_email_block_other o lg i l).2.1]
      exact h
    rw [(ml_budget_block_other o lg i _).2.2.1, (ml_interest_block_other o lg i _).2.2.1,
      (ml_company_block_other o lg i _).2.2.1, ml_phone_block_of_set o lg i _ hset,
      (ml_name_block_other o lg i _).2.1, (ml_email_block_other o lg i l).2.1]

theorem extract_ml_keeps_company (o : RegexOracle) (i lg : String) (l : MLLead)
    (h : is_set l.company = true) :
    (extract_lead_info_multilingual o i lg l).company = l.company := by
  cases he : i.isEmpty with
  | true => simp [extract_lead_info_multilingual, he]
  | false =>
    unfold extract_lead_info_multilingual
    simp only [he, Bool.false_eq_true, if_false]
    have hset : is_set (ml_phone_block o lg i
        (ml_name_block o lg i (ml_email_block o lg i l))).company = true := by
      rw [(ml_phone_block_other o lg i _).2.2.1, (ml_name_block_other o lg i _).2.2.1,
        (ml_email_block_other o lg i l).2.2.1]
      exact h
    rw [(ml_budget_block_other o lg i _).2.2.2.1, (ml_interest_block_other o lg i _).2.2.2.1,
      ml_company_block_of_set o lg i _ hset, (ml_phone_block_other o lg i _).2.2.1,
      (ml_name_block_other o lg i _).2.2.1, (ml_email_block_other o lg i l).2.2.1]

theorem extract_ml_keeps_interest (o : RegexOracle) (i lg : String) (l : MLLead)
    (h : is_set l.interest = true) :
    (extract_lead_info_multilingual o i lg l).interest = l.interest := by
  cases he : i.isEmpty with
  | true => simp [extract_lead_info_multilingual, he]
  | false =>
    unfold extract_lead_info_multilingual
    simp only [he, Bool.false_eq_true, if_false]
    have hset : is_set (ml_company_block o lg i (ml_phone_block o lg i
        (ml_name_block o lg i (ml_email_block o lg i l)))).interest = true := by
      rw [(ml_company_block_other o lg i _).2.2.2.1, (ml_phone_block_other o lg i _).2.2.2.1,
        (ml_name_block_other o lg i _).2.2.2.1, (ml_email_block_other o lg i l).2.2.2.1]
      exact h
    rw [(ml_budget_block_other o lg i _).2.2.2.2, ml_interest_block_of_set o lg i _ hset,
      (ml_company_block_other o lg i _).2.2.2.1, (ml_phone_block_other o lg i _).2.2.2.1,
      (ml_name_block_other o lg i _).2.2.2.1, (ml_email_block_other o lg i l).2.2.2.1]

theorem extract_ml_keeps_budget (o : RegexOracle) (i lg : String) (l : MLLead)
    (h : is_set l.budget = true) :
    (extract_lead_info_multilingual o i lg l).budget = l.budget := by
  cases he : i.isEmpty with
  | true => simp [extract_lead_info_multilingual, he]
  | false =>
    unfold extract_lead_info_multilingual
    simp only [he, Bool.false_eq_true, if_false]
    have hset : is_set (ml_interest_block o lg i (ml_company_block o lg i (ml_phone_block o lg i
        (ml_name_block o lg i (ml_email_block o lg i l))))).budget = true := by
      rw [(ml_interest_block_other o lg i _).2.2.2.2, (ml_company_block_other o lg i _).2.2.2.2,
        (ml_phone_block_other o lg i _).2.2.2.2, (ml_name_block_other o lg i _).2.2.2.2,
        (ml_email_block_other o lg i l).2.2.2.2]
      exact h
    rw [ml_budget_block_of_set o lg i _ hset, (ml_interest_block_other o lg i _).2.2.2.2,
      (ml_company_block_other o lg i _).2.2.2.2, (ml_phone_block_other o lg i _).2.2.2.2,
      (ml_name_block_other o lg i _).2.2.2.2, (ml_email_block_other o lg i l).2.2.2.2]

/-! ## Frame lemmas for the app.py regex extractor -/

theorem app_email_block_other (o : App.AppRegexOracle) (i : String) (st : App.AppLead × Bool) :
    (App.regex_email_block o i st).1.name = st.1.name
      ∧ (App.regex_email_block o i st).1.phone = st.1.phone
      ∧ (App.regex_email_block o i st).1.company = st.1.company
      ∧ (App.regex_email_block o i st).1.interest = st.1.interest := by
  unfold App.regex_email_block
  split
  · split
    · exact ⟨rfl, rfl, rfl, rfl⟩
    · exact ⟨rfl, rfl, rfl, rfl⟩
  · exact ⟨rfl, rfl, rfl, rfl⟩

theorem app_phone_block_other (o : App.AppRegexOracle) (i : String) (st : App.AppLead × Bool) :
    (App.regex_phone_block o i st).1.name = st.1.name
      ∧ (App.regex_phone_block o i st).1.email = st.1.email
      ∧ (App.regex_phone_block o i st).1.company = st.1.company
      ∧ (App.regex_phone_block o i st).1.interest = st.1.interest := by
  unfold App.regex_phone_block
  split
  · split
    · exact ⟨rfl, rfl, rfl, rfl⟩
    · exact ⟨rfl, rfl, rfl, rfl⟩
  · exact ⟨rfl, rfl, rfl, rfl⟩

theorem app_name_block_other (o : App.AppRegexOracle) (i : String) (st : App.AppLead × Bool) :
    (App.regex_name_block o i st).1.email = st.1.email
      ∧ (App.regex_name_block o i st).1.phone = st.1.phone
      ∧ (App.regex_name_block o i st).1.company = st.1.company
      ∧ (App.regex_name_block o i st).1.interest = st.1.interest := by
  unfold App.regex_name_block
  split
  · split
    · exact ⟨rfl, rfl, rfl, rfl⟩
    · exact ⟨rfl, rfl, rfl, rfl⟩
  · exact ⟨rfl, rfl, rfl, rfl⟩

theorem app_company_block_other (o : App.AppRegexOracle) (i : String) (st : App.AppLead × Bool) :
    (App.regex_company_block o i st).1.name = st.1.name
      ∧ (App.regex_company_block o i st).1.email = st.1.email
      ∧ (App.regex_company_block o i st).1.phone = st.1.phone
      ∧ (App.regex_company_block o i st).1.interest = st.1.interest := by
  unfold App.regex_company_block
  split
  · split
    · exact ⟨rfl, rfl, rfl, rfl⟩
    · exact ⟨rfl, rfl, rfl, rfl⟩
  · exact ⟨rfl, rfl, rfl, rfl⟩

theorem app_interest_block_other (o : App.AppRegexOracle) (i : String) (st : App.AppLead × Bool) :
    (App.regex_interest_block o i st).1.name = st.1.name
      ∧ (App.regex_interest_block o i st).1.email = st.1.email
      ∧ (App.regex_interest_block o i st).1.phone = st.1.phone
      ∧ (App.regex_interest_block o i st).1.company = st.1.company := by
  unfold App.regex_interest_block
  split
  · split
    · exact ⟨rfl, rfl, rfl, rfl⟩
    · exact ⟨rfl, rfl, rfl, rfl⟩
  · exact ⟨rfl, rfl, rfl, rfl⟩

theorem app_finalize_other (l : App.AppLead) (now : Nat) :
    (App.finalize l now).name = l.name ∧ (App.finalize l now).email = l.email
      ∧ (App.finalize l now).phone = l.phone ∧ (App.finalize l now).company = l.company
      ∧ (App.finalize l now).interest = l.interest :=
  ⟨rfl, rfl, rfl, rfl, rfl⟩

theorem app_email_block_of_set (o : App.AppRegexOracle) (i : String) (st : App.AppLead × Bool)
    (h : st.1.email.truthy = true) : App.regex_email_block o i st = st := by
  simp [App.regex_email_block, h]

theorem app_phone_block_of_set (o : App.AppRegexOracle) (i : String) (st : App.AppLead × Bool)
    (h : st.1.phone.truthy = true) : App.regex_phone_block o i st = st := by
  simp [App.regex_phone_block, h]

theorem app_name_block_of_set (o : App.AppRegexOracle) (i : String) (st : App.AppLead × Bool)
    (h : st.1.name.truthy = true) : App.regex_name_block o i st = st := by
  simp [App.regex_name_block, h]

theorem app_company_block_of_set (o : App.AppRegexOracle) (i : String) (st : App.AppLead × Bool)
    (h : st.1.company.truthy = true) : App.regex_company_block o i st = st := by
  simp [App.regex_company_block, h]

theorem app_interest_block_of_set (o : App.AppRegexOracle) (i : String) (st : App.AppLead × Bool)
    (h : st.1.interest.truthy = true) : App.regex_interest_block o i st = st := by
  simp [App.regex_interest_block, h]

theorem extract_app_keeps_email (oa : App.AppRegexOracle) (i : String) (al : App.AppLead)
    (now : Nat) (h : al.email.truthy = true) :
    (App.extract_lead_info_regex oa i al now).email = al.email := by
  simp only [App.extract_lead_info_regex]
  rw [app_email_block_of_set oa i (al, false) h]
  have hf : (App.regex_interest_block oa i (App.regex_company_block oa i
      (App.regex_name_block oa i (App.regex_phone_block oa i (al, false))))).1.email
      = al.email := by
    rw [(app_interest_block_other oa i _).2.1, (app_company_block_other oa i _).2.1,
      (app_name_block_other oa i _).1, (app_phone_block_other oa i _).2.1]
  split
  · rw [(app_finalize_other _ now).2.1, hf]
  · exact hf

theorem extract_app_keeps_phone (oa : App.AppRegexOracle) (i : String) (al : App.AppLead)
    (now : Nat) (h : al.phone.truthy = true) :
    (App.extract_lead_info_regex oa i al now).phone = al.phone := by
  simp only [App.extract_lead_info_regex]
  have hset : (App.regex_email_block oa i (al, false)).1.phone.truthy = true := by
    rw [(app_email_block_other oa i _).2.1]
    exact h
  rw [app_phone_block_of_set oa i _ hset]
  have hf : (App.regex_interest_block oa i (App.regex_company_block oa i
      (App.regex_name_block oa i (App.regex_email_block oa i (al, false))))).1.phone
      = al.phone := by
    rw [(app_interest_block_other oa i _).2.2.1, (app_company_block_other oa i _).2.2.1,
      (app_name_block_other oa i _).2.1, (app_email_block_other oa i _).2.1]
  split
  · rw [(app_finalize_other _ now).2.2.1, hf]
  · exact hf

theorem extract_app_keeps_name (oa : App.AppRegexOracle) (i : String) (al : App.AppLead)
    (now : Nat) (h : al.name.truthy = true) :
    (App.extract_lead_info_regex oa i al now).name = al.name := by
  simp only [App.extract_lead_info_regex]
  have hset : (App.regex_phone_block oa i (App.regex_email_block oa i (al, false))).1.name.truthy
      = true := by
    rw [(app_phone_block_other oa i _).1, (app_email_block_other oa i _).1]
    exact h
  rw [app_name_block_of_set oa i _ hset]
  have hf : (App.regex_interest_block oa i (App.regex_company_block oa i
      (App.regex_phone_block oa i (App.regex_email_block oa i (al, false))))).1.name
      = al.name := by
    rw [(app_interest_block_other oa i _).1, (app_company_block_other oa i _).1,
      (app_phone_block_other oa i _).1, (app_email_block_other oa i _).1]
  split
  · rw [(app_finalize_other _ now).1, hf]
  · exact hf

theorem extract_app_keeps_company (oa : App.AppRegexOracle) (i : String) (al : App.AppLead)
    (now : Nat) (h : al.company.truthy = true) :
    (App.extract_lead_info_regex oa i al now).company = al.company := by
  simp only [App.extract_lead_info_regex]
  have hset : (App.regex_name_block oa i (App.regex_phone_block oa i
      (App.regex_email_block oa i (al, false)))).1.company.truthy = true := by
    rw [(app_name_block_other oa i _).2.2.1, (app_phone_block_other oa i _).2.2.1,
      (app_email_block_other oa i _).2.2.1]
    exact h
  rw [app_company_block_of_set oa i _ hset]
  have hf : (App.regex_interest_block oa i (App.regex_name_block oa i
      (App.regex_phone_block oa i (App.regex_email_block oa i (al, false))))).1.company
      = al.company := by
    rw [(app_interest_block_other oa i _).2.2.2, (app_name_block_other oa i _).2.2.1,
      (app_phone_block_other oa i _).2.2.1, (app_email_block_other oa i _).2.2.1]
  split
  · rw [(app_finalize_other _ now).2.2.2.1, hf]
  · exact hf

theorem extract_app_keeps_interest (oa : App.AppRegexOracle) (i : String) (al : App.AppLead)
    (now : Nat) (h : al.interest.truthy = true) :
    (App.extract_lead_info_regex oa i al now).interest = al.interest := by
  simp only [App.extract_lead_info_regex]
  have hset : (App.regex_company_block oa i (App.regex_name_block oa i
      (App.regex_phone_block oa i (App.regex_email_block oa i (al, false))))).1.interest.truthy
      = true := by
    rw [(app_company_block_other oa i _).2.2.2, (app_name_block_other oa i _).2.2.2,
      (app_phone_block_other oa i _).2.2.2, (app_email_block_other oa i _).2.2.2]
    exact h
  rw [app_interest_block_of_set oa i _ hset]
  have hf : (App.regex_company_block oa i (App.regex_name_block oa i
      (App.regex_phone_block oa i (App.regex_email_block oa i (al, false))))).1.interest
      = al.interest := by
    rw [(app_company_block_other oa i _).2.2.2, (app_name_block_other oa i _).2.2.2,
      (app_phone_block_other oa i _).2.2.2, (app_email_block_other oa i _).2.2.2]
  split
  · rw [(app_finalize_other _ now).2.2.2.2, hf]
  · exact hf

/-! ## Helpers for the store invariant, the cadence gate, the signal set
and the merge failure path -/

theorem save_lead_keeps_unique_session (db : List LeadRow) (d : LeadDataDict)
    (sid fid : String) (now : Nat) (h : at_most_one_lead_per_session db) :
    at_most_one_lead_per_session (save_lead db d sid fid now) := by
  unfold at_most_one_lead_per_session at h ⊢
  unfold save_lead
  cases hf : db.find? (fun r => r.session_id == sid) with
  | some ex =>
    have hmap : (db.map (fun r => if r.id == ex.id then save_lead_update d r now else r)).map
        (fun r => r.session_id) = db.map (fun r => r.session_id) := by
      rw [List.map_map]
      apply List.map_congr_left
      intro a _
      by_cases hid : (a.id == ex.id) = true
      · simp [hid, save_lead_update, Function.comp]
      · simp [hid, Function.comp]
    rw [hmap]
    exact h
  | none =>
    simp only [List.map_append, List.map_cons, List.map_nil]
    rw [List.nodup_append]
    refine ⟨h, List.nodup_singleton _, ?_⟩
    intro x hx hx2
    have hall := List.find?_eq_none.mp hf
    simp only [List.mem_map] at hx
    obtain ⟨r, hr, hrx⟩ := hx
    have hne := hall r hr
    simp only [beq_iff_eq] at hne
    simp only [save_lead_insert, List.mem_singleton] at hx2
    exact hne (by rw [← hrx] at hx2; exact hx2)

theorem run_chat_len (g : String) (ts : List (String × String)) :
    (App.run_chat g ts).messages.length = 2 * (App.run_chat g ts).message_counter + 1 := by
  unfold App.run_chat
  suffices h : ∀ (ts : List (String × String)) (s : App.ChatState),
      s.messages.length = 2 * s.message_counter + 1 →
      ((ts.foldl (fun s t => App.chat_turn s t.1 t.2) s).messages.length
        = 2 * (ts.foldl (fun s t => App.chat_turn s t.1 t.2) s).message_counter + 1) by
    exact h ts _ (by simp [App.init_chat])
  intro ts
  induction ts with
  | nil => intro s hs; exact hs
  | cons t ts ih =>
    intro s hs
    simp only [List.foldl_cons]
    apply ih
    simp only [App.chat_turn, List.length_append, List.length_cons, List.length_nil]
    omega

theorem jsonBeq_str_iff (e : Json) (s : String) :
    jsonBeq e (Json.str s) = true ↔ e = Json.str s := by
  cases e <;> simp [jsonBeq]

theorem json_mem_str_iff (s : String) (l : List Json) :
    json_mem (Json.str s) l = true ↔ Json.str s ∈ l := by
  unfold json_mem
  rw [List.any_eq_true]
  constructor
  · rintro ⟨e, he, hbeq⟩
    rw [← (jsonBeq_str_iff e s).mp hbeq]
    exact he
  · intro hm
    exact ⟨Json.str s, hm, (jsonBeq_str_iff _ s).mpr rfl⟩

theorem signal_count_eq_zero (s : String) (l : List Json) (h : Json.str s ∉ l) :
    signal_count s l = 0 := by
  unfold signal_count
  rw [List.length_eq_zero, List.filter_eq_nil_iff]
  intro a ha hb
  exact h ((jsonBeq_str_iff a s).mp hb ▸ ha)

theorem signal_count_nodup_mem (s : String) (l : List Json) (hnd : l.Nodup)
    (hm : Json.str s ∈ l) : signal_count s l = 1 := by
  induction l with
  | nil => simp at hm
  | cons a tl ih =>
    rw [List.nodup_cons] at hnd
    by_cases ha : a = Json.str s
    · subst ha
      have h0 := signal_count_eq_zero s tl hnd.1
      unfold signal_count at h0 ⊢
      rw [List.filter_cons]
      simp [jsonBeq, h0]
    · have hm2 : Json.str s ∈ tl := by
        rcases List.mem_cons.mp hm with h1 | h1
        · exact absurd h1.symm ha
        · exact h1
      have hb : jsonBeq a (Json.str s) = false := by
        cases hv : jsonBeq a (Json.str s)
        · rfl
        · exact absurd ((jsonBeq_str_iff a s).mp hv) ha
      unfold signal_count at ih ⊢
      rw [List.filter_cons]
      simp only [hb, Bool.false_eq_true, if_false]
      exact ih hnd.2 hm2

theorem foldl_append_signal_extends (xs : List Json) :
    ∀ (l : List Json) (u : Bool), ∃ t, (xs.foldl App.append_signal (l, u)).1 = l ++ t := by
  induction xs with
  | nil => intro l u; exact ⟨[], by simp⟩
  | cons x xs ih =>
    intro l u
    simp only [List.foldl_cons]
    by_cases hm : json_mem x l = true
    · have hstep : App.append_signal (l, u) x = (l, u) := by simp [App.append_signal, hm]
      rw [hstep]
      exact ih l u
    · have hnm : json_mem x l = false := by
        cases hv : json_mem x l
        · rfl
        · exact absurd hv hm
      have hstep : App.append_signal (l, u) x = (l ++ [x], true) := by
        simp [App.append_signal, hnm]
      rw [hstep]
      obtain ⟨t, ht⟩ := ih (l ++ [x]) true
      exact ⟨[x] ++ t, by rw [ht, List.append_assoc]⟩

theorem dict_get_not_obj {j : Json} (h : Json.isObj j = false) (k : String) :
    dict_get j k = Except.error () := by
  cases j <;> first | rfl | (simp [Json.isObj] at h)

/-! ## Claims -/

/-- Claim C1, counterexample: `save_lead`'s merge is not first-write-wins.
The stored lead already has `name = "Alice"`, the incoming partial lead
supplies `name = "Bob"`, and the UPDATE's `COALESCE(?, name)` stores
`"Bob"`: the incoming non-null value overwrites the populated field. -/
theorem save_lead_update_overwrites_counterexample :
    c1_stored.name = some "Alice" ∧ c1_incoming.name = some "Bob"
      ∧ (save_lead_update c1_incoming c1_stored 5).name = some "Bob"
      ∧ (save_lead_update c1_incoming c1_stored 5).name ≠ c1_stored.name := by
  refine ⟨rfl, rfl, rfl, ?_⟩
  decide

/-- Claim C1, amended: for an existing lead, `save_lead` merges each of
the six data fields by `COALESCE(incoming, stored)` — a non-null incoming
value overwrites the stored one and a null incoming value keeps it —
while `language`, `score` and `priority` are always overwritten with the
incoming values (defaults `"en"`, 0, `"low"`), `updated_at` is set to now
and so never moves backwards, and `status`, identity and the remaining
columns are untouched. -/
theorem save_lead_update_merge_rule (d : LeadDataDict) (r : LeadRow) (now : Nat)
    (h : r.updated_at ≤ now) :
    (d.name = none → (save_lead_update d r now).name = r.name)
  ∧ (∀ v, d.name = some v → (save_lead_update d r now).name = some v)
  ∧ (d.email = none → (save_lead_update d r now).email = r.email)
  ∧ (∀ v, d.email = some v → (save_lead_update d r now).email = some v)
  ∧ (d.phone = none → (save_lead_update d r now).phone = r.phone)
  ∧ (∀ v, d.phone = some v → (save_lead_update d r now).phone = some v)
  ∧ (d.company = none → (save_lead_update d r now).company = r.company)
  ∧ (∀ v, d.company = some v → (save_lead_update d r now).company = some v)
  ∧ (d.interest = none → (save_lead_update d r now).interest = r.interest)
  ∧ (∀ v, d.interest = some v → (save_lead_update d r now).interest = some v)
  ∧ (d.budget = none → (save_lead_update d r now).budget = r.budget)
  ∧ (∀ v, d.budget = some v → (save_lead_update d r now).budget = some v)
  ∧ (save_lead_update d r now).score = d.score.getD 0
  ∧ (save_lead_update d r now).priority = d.priority.getD "low"
  ∧ (save_lead_update d r now).language = d.language.getD "en"
  ∧ (save_lead_update d r now).updated_at = now
  ∧ r.updated_at ≤ (save_lead_update d r now).updated_at
  ∧ (save_lead_update d r now).status = r.status
  ∧ (save_lead_update d r now).id = r.id
  ∧ (save_lead_update d r now).session_id = r.session_id
  ∧ (save_lead_update d r now).created_at = r.created_at
  ∧ (save_lead_update d r now).notes = r.notes
  ∧ (save_lead_update d r now).source = r.source :=
  ⟨fun h1 => by simp [save_lead_update, coalesce, h1],
   fun v hv => by simp [save_lead_update, coalesce, hv],
   fun h1 => by simp [save_lead_update, coalesce, h1],
   fun v hv => by simp [save_lead_update, coalesce, hv],
   fun h1 => by simp [save_lead_update, coalesce, h1],
   fun v hv => by simp [save_lead_update, coalesce, hv],
   fun h1 => by simp [save_lead_update, coalesce, h1],
   fun v hv => by simp [save_lead_update, coalesce, hv],
   fun h1 => by simp [save_lead_update, coalesce, h1],
   fun v hv => by simp [save_lead_update, coalesce, hv],
   fun h1 => by simp [save_lead_update, coalesce, h1],
   fun v hv => by simp [save_lead_update, coalesce, hv],
   rfl, rfl, rfl, rfl, h, rfl, rfl, rfl, rfl, rfl, rfl⟩

/-- Claim C1, witness: the amended merge rule evaluated on the concrete
stored row and incoming partial lead. -/
theorem save_lead_update_merge_rule_witness :
    (save_lead_update c1_incoming c1_stored 5).email = c1_stored.email
      ∧ (save_lead_update c1_incoming c1_stored 5).name = some "Bob"
      ∧ (save_lead_update c1_incoming c1_stored 5).score = 40
      ∧ (save_lead_update c1_incoming c1_stored 5).updated_at = 5 := by
  obtain ⟨-, hname, hemail, -, -, -, -, -, -, -, -, -, hscore, -, -, hupd, -, -, -, -, -, -, -⟩ :=
    save_lead_update_merge_rule c1_incoming c1_stored 5 (by decide)
  exact ⟨hemail rfl, hname "Bob" rfl, by rw [hscore]; rfl, hupd⟩

/-- Claim C3, counterexample: neither scorer implements the claimed
weighted sum.  On a session lead holding only an email the app.py scorer
returns 20 where the claimed table (email 30) demands 30, and on a lead
holding one buying signal and nothing else it returns 5 (5 per signal,
capped at 20) where the claim (10 per signal, capped at 30) demands
10. -/
theorem calculate_lead_score_counterexample :
    (App.calculate_lead_score c3_email_only).lead_score = 20
  ∧ spec_claimed_score true false false false false false 0 = 30
  ∧ (App.calculate_lead_score c3_email_only).lead_score
      ≠ spec_claimed_score true false false false false false 0
  ∧ (App.calculate_lead_score c3_one_signal).lead_score = 5
  ∧ spec_claimed_score false false false false false false 1 = 10 := by
  refine ⟨?_, ?_, ?_, ?_, ?_⟩ <;> decide

/-- Claim C3, amended: the multilanguage scorer with the default config is
the weighted sum email 30, phone 20, company 15, budget 15, interest 10,
name 10 over present fields, ignores buying signals entirely, and is
capped at 100, hence always in `[0, 100]`; the app.py scorer is the sum
name 10, email 20, phone 15, company 5, industry 10, interest 10, pain
points 10 plus 5 per buying signal capped at 20, also always in
`[0, 100]`. -/
theorem calculate_lead_score_characterization (l : MLLead) (al : App.AppLead) :
    calculate_lead_score l default_scoring =
      min ((if is_set l.email then (30 : Int) else 0) + (if is_set l.phone then 20 else 0)
        + (if is_set l.company then 15 else 0) + (if is_set l.budget then 15 else 0)
        + (if is_set l.interest then 10 else 0) + (if is_set l.name then 10 else 0)) 100
  ∧ 0 ≤ calculate_lead_score l default_scoring
  ∧ calculate_lead_score l default_scoring ≤ 100
  ∧ (App.calculate_lead_score al).lead_score =
      (if al.name.truthy then (10 : Int) else 0) + (if al.email.truthy then 20 else 0)
        + (if al.phone.truthy then 15 else 0) + (if al.company.truthy then 5 else 0)
        + (if al.industry.truthy then 10 else 0) + (if al.interest.truthy then 10 else 0)
        + (if al.pain_points.truthy then 10 else 0)
        + min ((al.buying_signals.length : Int) * 5) 20
  ∧ 0 ≤ (App.calculate_lead_score al).lead_score
  ∧ (App.calculate_lead_score al).lead_score ≤ 100 := by
  have h0 : (0 : Int) ≤ min ((al.buying_signals.length : Int) * 5) 20 :=
    le_min (mul_nonneg (Int.natCast_nonneg _) (by norm_num)) (by norm_num)
  have h20 : min ((al.buying_signals.length : Int) * 5) 20 ≤ 20 := min_le_right _ _
  refine ⟨?_, ?_, ?_, ?_, ?_, ?_⟩
  · simp [calculate_lead_score, default_scoring]
  · simp only [calculate_lead_score, default_scoring, Option.getD]
    split_ifs <;> decide
  · simp only [calculate_lead_score, default_scoring, Option.getD]
    split_ifs <;> decide
  · simp [App.calculate_lead_score]
  · simp only [App.calculate_lead_score]
    split_ifs <;> omega
  · simp only [App.calculate_lead_score]
    split_ifs <;> omega

/-- Claim C4 (confirmed): the priority of `get_lead_priority` is monotonic
non-decreasing in the score and piecewise-constant with exact boundaries
at 40 and 70: 39 maps to low, 40 and 69 to medium, 70 and everything
above to high. -/
theorem get_lead_priority_monotone :
    (∀ s t : Int, s ≤ t →
      priority_rank (get_lead_priority s) ≤ priority_rank (get_lead_priority t))
  ∧ get_lead_priority 39 = "low" ∧ get_lead_priority 40 = "medium"
  ∧ get_lead_priority 69 = "medium" ∧ get_lead_priority 70 = "high"
  ∧ (∀ s : Int, 70 ≤ s → get_lead_priority s = "high")
  ∧ (∀ s : Int, 40 ≤ s → s < 70 → get_lead_priority s = "medium")
  ∧ (∀ s : Int, s < 40 → get_lead_priority s = "low") := by
  refine ⟨?_, rfl, rfl, rfl, rfl, ?_, ?_, ?_⟩
  · intro s t hst
    unfold get_lead_priority
    split_ifs <;> first | decide | omega
  · intro s h
    simp [get_lead_priority, h]
  · intro s h1 h2
    have h3 : ¬ (70 ≤ s) := by omega
    simp [get_lead_priority, h1, h3]
  · intro s h
    have h1 : ¬ (70 ≤ s) := by omega
    have h2 : ¬ (40 ≤ s) := by omega
    simp [get_lead_priority, h1, h2]

/-- Claim C4, witness: the monotonicity and each threshold clause at
concrete scores. -/
theorem get_lead_priority_monotone_witness :
    priority_rank (get_lead_priority 3) ≤ priority_rank (get_lead_priority 50)
  ∧ get_lead_priority 85 = "high"
  ∧ get_lead_priority 55 = "medium"
  ∧ get_lead_priority 10 = "low" :=
  ⟨get_lead_priority_monotone.1 3 50 (by decide),
   get_lead_priority_monotone.2.2.2.2.2.1 85 (by decide),
   get_lead_priority_monotone.2.2.2.2.2.2.1 55 (by decide) (by decide),
   get_lead_priority_monotone.2.2.2.2.2.2.2 10 (by decide)⟩

/-- Claim C8 (code bug): on the utterance `"call me at 123-456-7890"` the
multilingual extractor captures the phone, computes the normalised form
`"1234567890"` only for the length check, and stores the raw match
`"123-456-7890"` — which still contains hyphens, contradicting the
documented normalisation (the sibling extractor in app.py does store
the stripped digits). -/
theorem extract_ml_phone_raw_match :
    (extract_lead_info_multilingual c8_oracle "call me at 123-456-7890" "en"
        empty_ml_lead).phone = some "123-456-7890"
  ∧ strip_phone_seps "123-456-7890" = "1234567890"
  ∧ ("123-456-7890" : String) ≠ "1234567890" := by
  refine ⟨?_, ?_, ?_⟩ <;> decide

/-- Claim C10 (confirmed): `update_lead_status` always overwrites `status`
with the given value, keeps the stored `notes` when the argument is
`None` (and overwrites them otherwise), sets `updated_at` to now (so it
never moves backwards), modifies no other column of the row, and leaves
every row whose `id` differs untouched. -/
theorem update_lead_status_frame (db : List LeadRow) (lead_id status_v : String)
    (notes : Option String) (now : Nat) (r : LeadRow) :
    (r ∈ db → r.id ≠ lead_id → r ∈ update_lead_status db lead_id status_v notes now)
  ∧ (update_lead_status db lead_id status_v notes now).length = db.length
  ∧ (update_lead_status_row status_v notes now r).status = status_v
  ∧ (notes = none → (update_lead_status_row status_v notes now r).notes = r.notes)
  ∧ (∀ v, notes = some v → (update_lead_status_row status_v notes now r).notes = some v)
  ∧ (update_lead_status_row status_v notes now r).updated_at = now
  ∧ (r.updated_at ≤ now →
      r.updated_at ≤ (update_lead_status_row status_v notes now r).updated_at)
  ∧ (update_lead_status_row status_v notes now r).id = r.id
  ∧ (update_lead_status_row status_v notes now r).session_id = r.session_id
  ∧ (update_lead_status_row status_v notes now r).name = r.name
  ∧ (update_lead_status_row status_v notes now r).email = r.email
  ∧ (update_lead_status_row status_v notes now r).phone = r.phone
  ∧ (update_lead_status_row status_v notes now r).company = r.company
  ∧ (update_lead_status_row status_v notes now r).interest = r.interest
  ∧ (update_lead_status_row status_v notes now r).budget = r.budget
  ∧ (update_lead_status_row status_v notes now r).language = r.language
  ∧ (update_lead_status_row status_v notes now r).score = r.score
  ∧ (update_lead_status_row status_v notes now r).priority = r.priority
  ∧ (update_lead_status_row status_v notes now r).created_at = r.created_at
  ∧ (update_lead_status_row status_v notes now r).source = r.source := by
  refine ⟨?_, ?_, rfl, ?_, ?_, rfl, ?_, rfl, rfl, rfl, rfl, rfl, rfl, rfl, rfl, rfl,
    rfl, rfl, rfl, rfl⟩
  · intro hmem hne
    unfold update_lead_status
    have hr : (fun x : LeadRow =>
        if x.id == lead_id then update_lead_status_row status_v notes now x else x) r = r := by
      have hb : (r.id == lead_id) = false := beq_eq_false_iff_ne.mpr hne
      simp [hb]
    rw [← hr]
    exact List.mem_map_of_mem _ hmem
  · simp [update_lead_status]
  · intro h1
    simp [update_lead_status_row, coalesce, h1]
  · intro v hv
    simp [update_lead_status_row, coalesce, hv]
  · intro hle
    exact hle

/-- Claim C10, witness: updating lead `L7` to `contacted` with no notes on
a two-row table keeps `L8` untouched, keeps the stored notes, and stamps
`updated_at`. -/
theorem update_lead_status_frame_witness :
    c10_other ∈ update_lead_status [c10_row, c10_other] "L7" "contacted" none 9
  ∧ (update_lead_status_row "contacted" none 9 c10_row).status = "contacted"
  ∧ (update_lead_status_row "contacted" none 9 c10_row).notes = some "first call done"
  ∧ (update_lead_status_row "contacted" none 9 c10_row).updated_at = 9 := by
  obtain ⟨hmem, -, hstatus, hnotes, -, hupd, -⟩ :=
    update_lead_status_frame [c10_row, c10_other] "L7" "contacted" none 9 c10_other
  obtain ⟨-, -, hstatus2, hnotes2, -, hupd2, -⟩ :=
    update_lead_status_frame [c10_row, c10_other] "L7" "contacted" none 9 c10_row
  exact ⟨hmem (by decide) (by decide), hstatus2, by rw [hnotes2 rfl]; rfl, hupd2⟩

/-- Claim C2 (confirmed): first-write-wins for extraction.  For every
oracle (hence every utterance and regex outcome), locale and lead, a
field already set to a non-empty value is left unchanged by
`extract_lead_info_multilingual` (name, email, phone, company, interest,
budget), and likewise a truthy field by app.py's
`extract_lead_info_regex` (its five fields). -/
theorem extract_first_write_wins (o : RegexOracle) (oa : App.AppRegexOracle)
    (i lg : String) (l : MLLead) (al : App.AppLead) (now : Nat) :
    (is_set l.name = true → (extract_lead_info_multilingual o i lg l).name = l.name)
  ∧ (is_set l.email = true → (extract_lead_info_multilingual o i lg l).email = l.email)
  ∧ (is_set l.phone = true → (extract_lead_info_multilingual o i lg l).phone = l.phone)
  ∧ (is_set l.company = true → (extract_lead_info_multilingual o i lg l).company = l.company)
  ∧ (is_set l.interest = true → (extract_lead_info_multilingual o i lg l).interest = l.interest)
  ∧ (is_set l.budget = true → (extract_lead_info_multilingual o i lg l).budget = l.budget)
  ∧ (al.name.truthy = true → (App.extract_lead_info_regex oa i al now).name = al.name)
  ∧ (al.email.truthy = true → (App.extract_lead_info_regex oa i al now).email = al.email)
  ∧ (al.phone.truthy = true → (App.extract_lead_info_regex oa i al now).phone = al.phone)
  ∧ (al.company.truthy = true → (App.extract_lead_info_regex oa i al now).company = al.company)
  ∧ (al.interest.truthy = true →
      (App.extract_lead_info_regex oa i al now).interest = al.interest) :=
  ⟨extract_ml_keeps_name o i lg l, extract_ml_keeps_email o i lg l,
   extract_ml_keeps_phone o i lg l, extract_ml_keeps_company o i lg l,
   extract_ml_keeps_interest o i lg l, extract_ml_keeps_budget o i lg l,
   extract_app_keeps_name oa i al now, extract_app_keeps_email oa i al now,
   extract_app_keeps_phone oa i al now, extract_app_keeps_company oa i al now,
   extract_app_keeps_interest oa i al now⟩

/-- Claim C2, witness: on a fully-populated lead, even an oracle on which
every pattern matches changes nothing. -/
theorem extract_first_write_wins_witness :
    (extract_lead_info_multilingual ml_full_oracle "hello" "en" c2_full_ml_lead).email
      = some "alice@example.com"
  ∧ (extract_lead_info_multilingual ml_full_oracle "hello" "en" c2_full_ml_lead).phone
      = some "1234567890"
  ∧ (App.extract_lead_info_regex app_full_oracle "hello" c2_full_app_lead 4).name
      = Json.str "Alice" := by
  obtain ⟨-, he, hp, -, -, -, han, -⟩ := extract_first_write_wins ml_full_oracle
    app_full_oracle "hello" "en" c2_full_ml_lead c2_full_app_lead 4
  exact ⟨by rw [he (by decide)]; rfl, by rw [hp (by decide)]; rfl,
    by rw [han (by decide)]; rfl⟩

/-- Claim C5, counterexample: the persisted schema does not enforce
uniqueness of `leads.session_id`.  A table holding two rows with
distinct primary keys `A`, `B` but the same `session_id` `S` satisfies
every constraint `init_database` declares, yet violates
one-lead-per-session. -/
theorem leads_schema_counterexample :
    leads_schema_ok [c5_row1, c5_row2]
  ∧ ¬ at_most_one_lead_per_session [c5_row1, c5_row2] := by
  constructor
  · unfold leads_schema_ok
    decide
  · unfold at_most_one_lead_per_session
    decide

/-- Claim C5, amended: the one-lead-per-session invariant is maintained
operationally by the upsert — any `save_lead` call preserves it, and any
sequence of `save_lead` calls from the empty table satisfies it — but it
is not enforced by the schema (see the counterexample: `session_id`
carries no UNIQUE constraint). -/
theorem save_lead_unique_session (db : List LeadRow) (op : SaveOp) (ops : List SaveOp)
    (h : at_most_one_lead_per_session db) :
    at_most_one_lead_per_session (apply_save_op db op)
  ∧ at_most_one_lead_per_session (ops.foldl apply_save_op []) := by
  constructor
  · exact save_lead_keeps_unique_session db op.lead_data op.session_id op.fresh_id op.now h
  · suffices hh : ∀ (os : List SaveOp) (d : List LeadRow), at_most_one_lead_per_session d →
        at_most_one_lead_per_session (os.foldl apply_save_op d) by
      exact hh ops [] (by simp [at_most_one_lead_per_session])
    intro os
    induction os with
    | nil => intro d hd; exact hd
    | cons o os2 ih =>
      intro d hd
      simp only [List.foldl_cons]
      exact ih _ (save_lead_keeps_unique_session d o.lead_data o.session_id o.fresh_id o.now hd)

/-- Claim C5, witness: one upsert into a one-row table, and a one-element
operation sequence from the empty table. -/
theorem save_lead_unique_session_witness :
    at_most_one_lead_per_session (apply_save_op [c5_row1] c5_op)
  ∧ at_most_one_lead_per_session ([c5_op].foldl apply_save_op []) :=
  save_lead_unique_session [c5_row1] c5_op [c5_op]
    (by unfold at_most_one_lead_per_session; decide)

/-- Claim C6, counterexample: a structured response that is a JSON object
but malformed for the schema (`pain_points` is `[1]`) does not skip the
merge entirely: `implied_interests` is merged into the lead before the
`"; ".join` raises, so the lead record is not left as it was. -/
theorem analyze_partial_merge_counterexample :
    App.spec_well_formed_analysis c6_bad_response = false
  ∧ (App.analyze_conversation_with_openai 4 (.ok c6_bad_response) c6_lead 9).interest
      = Json.str "AI solutions"
  ∧ c6_lead.interest = Json.null
  ∧ App.analyze_conversation_with_openai 4 (.ok c6_bad_response) c6_lead 9 ≠ c6_lead := by
  refine ⟨rfl, rfl, rfl, ?_⟩
  intro h
  have h2 : (App.analyze_conversation_with_openai 4 (.ok c6_bad_response) c6_lead 9).interest
      = Json.null := by rw [h]; rfl
  rw [show (App.analyze_conversation_with_openai 4 (.ok c6_bad_response) c6_lead 9).interest
      = Json.str "AI solutions" from rfl] at h2
  exact Json.noConfusion h2

/-- Claim C6, amended: every failure up to parsing — transport error,
timeout, unparsable text (`Except.error`), or a parsed response that is
not a JSON object (so `analysis.get` raises before any mutation) — makes
`analyze_conversation_with_openai` skip the merge entirely and return
the lead unchanged, and the short-history guard does the same; no
exception ever escapes (the function is total).  Only a JSON object
malformed at a later key can leave a partial merge (see the
counterexample). -/
theorem analyze_failure_skips_merge (lead : App.AppLead) (now n : Nat) :
    App.analyze_conversation_with_openai n (.error ()) lead now = lead
  ∧ (∀ j : Json, Json.isObj j = false →
      App.analyze_conversation_with_openai n (.ok j) lead now = lead)
  ∧ (∀ resp, n < 3 → App.analyze_conversation_with_openai n resp lead now = lead) := by
  refine ⟨?_, ?_, ?_⟩
  · by_cases hn : n < 3 <;> simp [App.analyze_conversation_with_openai, hn]
  · intro j hj
    by_cases hn : n < 3
    · simp [App.analyze_conversation_with_openai, hn]
    · simp only [App.analyze_conversation_with_openai, if_neg hn]
      by_cases h1 : lead.interest.truthy <;>
        by_cases h2 : lead.industry.truthy <;>
          by_cases h3 : lead.pain_points.truthy <;>
            simp [App.merge_interest, App.merge_industry, App.merge_pain_points,
              App.merge_buying_signals, dict_get_not_obj hj, Except.bind, h1, h2, h3]
  · intro resp hn
    simp [App.analyze_conversation_with_openai, hn]

/-- Claim C6, witness: a response that parses to a JSON array (not an
object) leaves a concrete lead record exactly unchanged. -/
theorem analyze_failure_skips_merge_witness :
    Json.isObj (Json.arr [Json.num 1]) = false
  ∧ App.analyze_conversation_with_openai 5 (.ok (Json.arr [Json.num 1])) c6_lead 7 = c6_lead
  ∧ App.analyze_conversation_with_openai 5 (.error ()) c6_lead 7 = c6_lead := by
  obtain ⟨herr, hobj, -⟩ := analyze_failure_skips_merge c6_lead 7 5
  exact ⟨rfl, hobj (Json.arr [Json.num 1]) rfl, herr⟩

/-- Claim C7 (confirmed): in the `chat_page` turn loop, the LLM analysis
is performed exactly when the history length at the moment of the check
(greeting, the completed turns, and the just-appended user message) is a
multiple of 3, and never before at least 3 messages have accumulated; on
every other turn no analysis call is made. -/
theorem chat_analysis_cadence (g : String) (ts : List (String × String)) :
    (App.analysis_performed (App.run_chat g ts) = true ↔
      App.history_len_at_check (App.run_chat g ts) % 3 = 0)
  ∧ (App.analysis_performed (App.run_chat g ts) = true →
      3 ≤ App.history_len_at_check (App.run_chat g ts)) := by
  have hlen := run_chat_len g ts
  have hperf : App.analysis_performed (App.run_chat g ts) = true ↔
      (((App.run_chat g ts).message_counter + 1) % 3 = 0
        ∧ ¬ ((App.run_chat g ts).messages.length + 1 < 3)) := by
    simp [App.analysis_performed, App.analysis_invoked, App.history_len_at_check]
  constructor
  · rw [hperf]
    unfold App.history_len_at_check
    omega
  · rw [hperf]
    unfold App.history_len_at_check
    omega

/-- Claim C7, witness: after two completed turns the third user message
triggers the analysis, at history length 6. -/
theorem chat_analysis_cadence_witness :
    App.analysis_performed (App.run_chat "hi" [("a", "b"), ("c", "d")]) = true
  ∧ App.history_len_at_check (App.run_chat "hi" [("a", "b"), ("c", "d")]) % 3 = 0
  ∧ 3 ≤ App.history_len_at_check (App.run_chat "hi" [("a", "b"), ("c", "d")]) := by
  obtain ⟨hiff, himp⟩ := chat_analysis_cadence "hi" [("a", "b"), ("c", "d")]
  exact ⟨rfl, hiff.mp rfl, himp rfl⟩

/-- Claim C9 (confirmed): the buying-signals collection is append-only and
deduplicated by exact string equality.  Appending the signal string `s`
twice through the merge's `append_signal` leaves exactly one occurrence
of it (on any duplicate-free collection, and the collection stays
duplicate-free), and a whole merge pass over any signal list only
appends: the previous collection is a prefix of the new one. -/
theorem buying_signals_append_dedup (l : List Json) (u : Bool) (s : String)
    (xs : List Json) (h : l.Nodup) :
    signal_count s ((App.append_signal (App.append_signal (l, u) (Json.str s))
      (Json.str s)).1) = 1
  ∧ ((App.append_signal (l, u) (Json.str s)).1).Nodup
  ∧ (∃ t, (xs.foldl App.append_signal (l, u)).1 = l ++ t) := by
  refine ⟨?_, ?_, foldl_append_signal_extends xs l u⟩
  · by_cases hm : json_mem (Json.str s) l = true
    · have hstep : App.append_signal (l, u) (Json.str s) = (l, u) := by
        simp [App.append_signal, hm]
      rw [hstep, hstep]
      exact signal_count_nodup_mem s l h ((json_mem_str_iff s l).mp hm)
    · have hnm : json_mem (Json.str s) l = false := by
        cases hv : json_mem (Json.str s) l
        · rfl
        · exact absurd hv hm
      have hnotmem : Json.str s ∉ l := fun hmem =>
        hm ((json_mem_str_iff s l).mpr hmem)
      have hstep : App.append_signal (l, u) (Json.str s) = (l ++ [Json.str s], true) := by
        simp [App.append_signal, hnm]
      have hmem2 : json_mem (Json.str s) (l ++ [Json.str s]) = true :=
        (json_mem_str_iff s _).mpr (by simp)
      have hstep2 : App.append_signal (l ++ [Json.str s], true) (Json.str s)
          = (l ++ [Json.str s], true) := by
        simp [App.append_signal, hmem2]
      rw [hstep, hstep2]
      have h0 := signal_count_eq_zero s l hnotmem
      unfold signal_count at h0 ⊢
      rw [List.filter_append, List.length_append, h0]
      simp [jsonBeq]
  · by_cases hm : json_mem (Json.str s) l = true
    · have hstep : App.append_signal (l, u) (Json.str s) = (l, u) := by
        simp [App.append_signal, hm]
      rw [hstep]
      exact h
    · have hnm : json_mem (Json.str s) l = false := by
        cases hv : json_mem (Json.str s) l
        · rfl
        · exact absurd hv hm
      have hnotmem : Json.str s ∉ l := fun hmem =>
        hm ((json_mem_str_iff s l).mpr hmem)
      have hstep : App.append_signal (l, u) (Json.str s) = (l ++ [Json.str s], true) := by
        simp [App.append_signal, hnm]
      rw [hstep]
      rw [List.nodup_append]
      exact ⟨h, List.nodup_singleton _, fun x hx hx2 => by
        rw [List.mem_singleton] at hx2
        exact hnotmem (hx2 ▸ hx)⟩

/-- Claim C9, witness: appending `"demo"` twice to the singleton
collection `["price"]` yields exactly one `"demo"`, keeps the collection
duplicate-free, and a pass only appends. -/
theorem buying_signals_append_dedup_witness :
    signal_count "demo" ((App.append_signal (App.append_signal ([Json.str "price"], false)
      (Json.str "demo")) (Json.str "demo")).1) = 1
  ∧ ((App.append_signal ([Json.str "price"], false) (Json.str "demo")).1).Nodup
  ∧ (∃ t, ([Json.str "x"].foldl App.append_signal ([Json.str "price"], false)).1
      = [Json.str "price"] ++ t) :=
  buying_signals_append_dedup [Json.str "price"] false "demo" [Json.str "x"] (by simp)
